import Mathlib

/-!
Verification of the weather tool-calling assistant
(`src/toolcalling/groq_weather_app.py`).

The script has two parts:

* `get_current_weather(location)` — a lookup that issues a geocoding HTTP
  request, then a current-weather HTTP request, and always returns one
  JSON-serialized payload: either a success payload
  `{location, current:{...}}` or an error payload carrying an `"error"` key.
* the `__main__` read-eval-print loop — per user line, one LLM chat request
  with the weather tool declared; if the model requests the known tool, the
  lookup runs and a second LLM request carries its payload; a per-turn
  `try/except` turns any raised exception into a generic printed notice.

We embed the script shallowly.  JSON values parsed from HTTP responses are an
inductive `Json`; Python subscription, `dict.get`, truthiness, `in`, and the
exceptions those operations raise (`KeyError`, `TypeError`, `IndexError`,
`AttributeError`, `requests.exceptions.RequestException`) are modelled
explicitly, since the script's three `except` clauses dispatch on them.  The
outside world (what each HTTP request / LLM request returns, or which
exception it raises) is a record of oracles, and each function also returns
the ordered list of its observable events (outbound requests and printed
lines), so that frame/effect claims are provable.  JSON numbers are modelled
as integers: the only numeric comparison the script makes is
`weather_data.get('cod') != 200` against the integer literal `200`, and all
other numbers are copied opaquely into the output payload.
-/

/-- A JSON value, as produced by `response.json()` / `json.loads`.
Numbers are modelled as integers (see the file header).  Objects are
association lists; values parsed from JSON have no duplicate keys
(`json.loads` keeps the last occurrence), and lookups take the first match. -/
inductive Json where
  | null : Json
  | bool : Bool → Json
  | num : Int → Json
  | str : String → Json
  | arr : List Json → Json
  | obj : List (String × Json) → Json
deriving Repr

/-- The Python exceptions the script's `except` clauses distinguish:
`requests.exceptions.RequestException` (transport failures), `KeyError`
(missing dict key; the payload is `str(e)`, i.e. the repr of the key),
`TypeError`, `IndexError`, and a catch-all for every other `Exception`
(e.g. `AttributeError`). -/
inductive PyExc where
  | requestException : String → PyExc
  | keyError : String → PyExc
  | typeError : String → PyExc
  | indexError : PyExc
  | otherError : String → PyExc
deriving Repr, DecidableEq

/-- Python `str(e)` for an exception: the message (for `KeyError`, the repr
of the missing key, e.g. `'lat'`). -/
def PyExc.pyStr : PyExc → String
  | .requestException m => m
  | .keyError r => r
  | .typeError m => m
  | .indexError => "list index out of range"
  | .otherError m => m

mutual

/-- Python `repr` of a parsed JSON value (string escaping elided). -/
def Json.pyRepr : Json → String
  | .null => "None"
  | .bool true => "True"
  | .bool false => "False"
  | .num n => toString n
  | .str s => "'" ++ s ++ "'"
  | .arr xs => "[" ++ reprCommaList xs ++ "]"
  | .obj fs => "\x7b" ++ reprCommaFields fs ++ "\x7d"

/-- Comma-separated `repr`s of the elements of a list. -/
def reprCommaList : List Json → String
  | [] => ""
  | [x] => x.pyRepr
  | x :: xs => x.pyRepr ++ ", " ++ reprCommaList xs

/-- Comma-separated `repr`s of the entries of a dict. -/
def reprCommaFields : List (String × Json) → String
  | [] => ""
  | [(k, v)] => "'" ++ k ++ "': " ++ v.pyRepr
  | (k, v) :: fs => "'" ++ k ++ "': " ++ v.pyRepr ++ ", " ++ reprCommaFields fs

end

/-- Python `str` of a parsed JSON value, as used by f-string interpolation:
identical to `repr` except on strings. -/
def Json.pyStr : Json → String
  | .str s => s
  | j => j.pyRepr

/-- Python truthiness of a parsed JSON value (`if not geo_data`). -/
def Json.falsy : Json → Bool
  | .null => true
  | .bool b => !b
  | .num n => n == 0
  | .str s => s.isEmpty
  | .arr xs => xs.isEmpty
  | .obj fs => fs.isEmpty

/-- Python `j == n` for an integer literal `n`: numbers compare by value and
`True`/`False` equal `1`/`0`; every other JSON value is unequal to an int. -/
def Json.pyEqInt (j : Json) (n : Int) : Bool :=
  match j with
  | .num m => m == n
  | .bool b => (if b then (1 : Int) else 0) == n
  | _ => false

/-- The repr of a string key, as it appears in `str(KeyError(k))`. -/
def squote (k : String) : String := "'" ++ k ++ "'"

/-- Python subscription `j[i]` by a non-negative int: list indexing
(`IndexError` when out of range), dict lookup by the *int* key (always a
`KeyError` here since parsed-JSON keys are strings), string indexing, and
`TypeError` for the other types. -/
def pyIndex : Json → Nat → Except PyExc Json
  | .arr xs, i =>
    match xs.get? i with
    | some v => .ok v
    | none => .error .indexError
  | .obj _, i => .error (.keyError (toString i))
  | .str s, i =>
    match s.toList.get? i with
    | some c => .ok (.str (String.mk [c]))
    | none => .error (.otherError "IndexError: string index out of range")
  | _, _ => .error (.typeError "object is not subscriptable")

/-- Python subscription `j[k]` by a string key: dict lookup
(`KeyError` naming the key when missing), `TypeError` for the other types. -/
def pyGetItem : Json → String → Except PyExc Json
  | .obj fs, k =>
    match fs.lookup k with
    | some v => .ok v
    | none => .error (.keyError (squote k))
  | .arr _, _ => .error (.typeError "list indices must be integers or slices, not str")
  | .str _, _ => .error (.typeError "string indices must be integers")
  | _, _ => .error (.typeError "object is not subscriptable")

/-- Python `j.get(k, dflt)`: defined on dicts only; on any other value the
attribute access raises `AttributeError` (a plain `Exception`). -/
def pyGetMethod (j : Json) (k : String) (dflt : Json) : Except PyExc Json :=
  match j with
  | .obj fs => .ok ((fs.lookup k).getD dflt)
  | _ => .error (.otherError "AttributeError: object has no attribute get")

/-- Python `k in j` for a string `k`: key membership for dicts, element
membership for lists, substring test for strings, `TypeError` otherwise. -/
def pyContains (j : Json) (k : String) : Except PyExc Bool :=
  match j with
  | .obj fs => .ok (fs.any (fun kv => kv.1 == k))
  | .arr xs =>
    .ok (xs.any (fun x => match x with | .str s => s == k | _ => false))
  | .str s => .ok (decide ((s.splitOn k).length ≠ 1))
  | _ => .error (.typeError "argument of type is not iterable")

/-- An observable event of the script, in program order: the two outbound
HTTP requests of the lookup, an LLM chat-completion request, or a printed
line. -/
inductive Ev where
  | geoRequest : String → Ev
  | weatherRequest : Json → Json → Ev
  | llmRequest : Ev
  | print : String → Ev
deriving Repr

/-- The outside world one `get_current_weather` call sees: what each of its
two HTTP-request-plus-`.json()` steps yields — a parsed JSON value, or the
exception it raises (invalid JSON raises a `RequestException` subclass in
current `requests`; a modeller may also pick `otherError`). -/
structure LookupWorld where
  geoOutcome : Except PyExc Json
  weatherOutcome : Except PyExc Json

/-- The payload built by the `except` clauses of `get_current_weather`
(lines 69–77): `RequestException` → `Network error`, `KeyError` →
`Data parsing error` naming the missing field, anything else →
`Unexpected error`. -/
def excPayload (e : PyExc) : Json :=
  match e with
  | .requestException m => Json.obj [("error", Json.str "Network error"), ("message", Json.str m)]
  | .keyError r =>
    Json.obj [("error", Json.str "Data parsing error"),
              ("message", Json.str ("Missing field: " ++ r))]
  | e => Json.obj [("error", Json.str "Unexpected error"), ("message", Json.str e.pyStr)]

/-- The diagnostic line printed by the matching `except` clause. -/
def excLog (e : PyExc) : String :=
  match e with
  | .requestException m => "Network error: " ++ m
  | .keyError r => "Data error: " ++ r
  | e => "Unexpected error: " ++ e.pyStr

/-- Return value and appended print of an `except` clause, given the events
already performed. -/
def excResult (pre : List Ev) (e : PyExc) : Json × List Ev :=
  (excPayload e, pre ++ [Ev.print (excLog e)])

/-- Lines 37–38: `lat = geo_data[0]['lat']; lon = geo_data[0]['lon']`. -/
def extractCoords (geo_data : Json) : Except PyExc (Json × Json) := do
  let entry ← pyIndex geo_data 0
  let lat ← pyGetItem entry "lat"
  let lon ← pyGetItem entry "lon"
  pure (lat, lon)

/-- Lines 56–65: the field accesses building the `"current"` sub-object, in
source order (`main.temp`, `main.feels_like`, `main.humidity`, `wind.speed`,
`weather[0].description`). -/
def extractCurrent (weather_data : Json) : Except PyExc (List (String × Json)) := do
  let mainObj ← pyGetItem weather_data "main"
  let temp ← pyGetItem mainObj "temp"
  let feels ← pyGetItem mainObj "feels_like"
  let humidity ← pyGetItem mainObj "humidity"
  let windObj ← pyGetItem weather_data "wind"
  let speed ← pyGetItem windObj "speed"
  let weatherArr ← pyGetItem weather_data "weather"
  let entry0 ← pyIndex weatherArr 0
  let desc ← pyGetItem entry0 "description"
  pure [("temperature", temp), ("feels_like", feels), ("humidity", humidity),
        ("wind_speed", speed), ("weather_description", desc)]

/-- `get_current_weather(location)` (lines 20–77).  The argument is an
arbitrary value because the orchestrator splats the parsed tool arguments
(`get_current_weather(**args)`); f-string interpolation into the URLs and
messages applies `str`.  Returns the payload (the value serialized by
`json.dumps`) together with the ordered events (requests and prints). -/
def get_current_weather (location : Json) (w : LookupWorld) : Json × List Ev :=
  let ev1 := [Ev.geoRequest location.pyStr]
  match w.geoOutcome with
  | .error e => excResult ev1 e
  | .ok geo_data =>
    if geo_data.falsy then
      (Json.obj [("error", Json.str ("Location '" ++ location.pyStr ++ "' not found"))], ev1)
    else
      match extractCoords geo_data with
      | .error e => excResult ev1 e
      | .ok (lat, lon) =>
        let ev2 := ev1 ++ [Ev.weatherRequest lat lon]
        match w.weatherOutcome with
        | .error e => excResult ev2 e
        | .ok weather_data =>
          match pyGetMethod weather_data "cod" Json.null with
          | .error e => excResult ev2 e
          | .ok cod =>
            if !(cod.pyEqInt 200) then
              match pyGetMethod weather_data "message" (Json.str "Unknown error") with
              | .error e => excResult ev2 e
              | .ok msg =>
                (Json.obj [("error", Json.str "Weather API error"), ("message", msg),
                           ("status_code", cod)],
                 ev2 ++ [Ev.print ("API Error: " ++ msg.pyStr)])
            else
              match extractCurrent weather_data with
              | .error e => excResult ev2 e
              | .ok current =>
                (Json.obj [("location", location), ("current", Json.obj current)], ev2)

/-- One tool call's `function` part: its declared name, and the outcome of
`json.loads(tool_call.function.arguments)` (the raw argument text is opaque
to the orchestrator until parsed, so we carry the parse outcome: the parsed
value, or the exception `json.loads` raises on malformed text). -/
structure FnCall where
  name : String
  argumentsParsed : Except PyExc Json

/-- One entry of `response.choices[0].message.tool_calls`. -/
structure ToolCall where
  id : String
  function : FnCall

/-- `response.choices[0].message` of a chat completion: optional direct text
and the tool-call list (`None` and `[]` are both falsy, so the empty list
models both). -/
structure LlmMsg where
  content : Option String
  tool_calls : List ToolCall

/-- The outside world one user turn sees: what each of the (at most two)
`client.chat.completions.create` calls yields, or the exception it raises,
plus the lookup's world. -/
structure TurnWorld where
  firstLlm : Except PyExc LlmMsg
  lookupWorld : LookupWorld
  secondLlm : Except PyExc LlmMsg

/-- Python `print(x)` of an `Optional[str]`: `None` prints as `None`. -/
def optPyStr : Option String → String
  | none => "None"
  | some s => s

/-- `get_current_weather(**args)` (line 157): the splat succeeds — entering
the function with `location` bound — exactly when `args` is a dict whose
keys are exactly `{"location"}`; a non-dict raises `TypeError`, a dict with
a key other than `location` raises `TypeError` (unexpected keyword), and a
dict without `location` raises `TypeError` (missing required argument).
(A dict cannot repeat a key, so the multi-entry all-`location` case is
unreachable for values produced by `json.loads`.) -/
def splatWeatherCall (lw : LookupWorld) (args : Json) : Except PyExc (Json × List Ev) :=
  match args with
  | Json.obj [] =>
    Except.error (PyExc.typeError
      "get_current_weather() missing 1 required positional argument: 'location'")
  | Json.obj [(k, v)] =>
    if k == "location" then Except.ok (get_current_weather v lw)
    else
      Except.error (PyExc.typeError
        ("get_current_weather() got an unexpected keyword argument " ++ squote k))
  | Json.obj (kv1 :: kv2 :: kvs) =>
    if ((kv1 :: kv2 :: kvs).all (fun kv => kv.1 == "location")) then
      Except.error (PyExc.typeError
        "get_current_weather() got multiple values for argument 'location'")
    else
      Except.error (PyExc.typeError
        "get_current_weather() got an unexpected keyword argument")
  | _ => Except.error (PyExc.typeError "argument after ** must be a mapping")

/-- The static fallback answer for an unrecognized tool name (line 192). -/
def fallbackAnswer : String :=
  "I'm not sure how to handle that request. Please ask about the weather in a specific location."

/-- The `try:` body of one user turn (lines 121–196): first LLM request;
if the response requests the known tool, parse its arguments, run the
lookup, and issue the second LLM request with the serialized outcome;
otherwise answer directly.  Returns the events performed and, when a
statement raised, the exception that escapes to the turn's `except`. -/
def turnBody (w : TurnWorld) : List Ev × Option PyExc :=
  let ev1 := [Ev.llmRequest]
  match w.firstLlm with
  | .error e => (ev1, some e)
  | .ok groq_response =>
    let ev2 := ev1 ++ [Ev.print "\nProcessing your question..."]
    match groq_response.tool_calls with
    | [] =>
      (ev2 ++ [Ev.print "\nAnswer:", Ev.print (optPyStr groq_response.content)], none)
    | tool_call :: _ =>
      if tool_call.function.name == "get_current_weather" then
        match tool_call.function.argumentsParsed with
        | .error e => (ev2, some e)
        | .ok args =>
          match pyGetMethod args "location" (Json.str "") with
          | .error e => (ev2, some e)
          | .ok location =>
            let ev3 := ev2 ++ [Ev.print ("Getting weather for: " ++ location.pyStr)]
            match splatWeatherCall w.lookupWorld args with
            | .error e => (ev3, some e)
            | .ok (weather_data, lookupEvs) =>
              let ev4 := ev3 ++ lookupEvs
              match pyContains weather_data "error" with
              | .error e => (ev4, some e)
              | .ok hasErr =>
                let afterCheck : List Ev × Option PyExc :=
                  if hasErr then
                    match pyGetMethod weather_data "message" (Json.str "Unknown error") with
                    | .error e => (ev4, some e)
                    | .ok m => (ev4 ++ [Ev.print ("Error: " ++ m.pyStr)], none)
                  else (ev4, none)
                match afterCheck with
                | (ev5, some e) => (ev5, some e)
                | (ev5, none) =>
                  let ev6 := ev5 ++ [Ev.llmRequest]
                  match w.secondLlm with
                  | .error e => (ev6, some e)
                  | .ok second_message =>
                    (ev6 ++ [Ev.print "\nAnswer:",
                             Ev.print (optPyStr second_message.content)], none)
      else
        (ev2 ++ [Ev.print "\nAnswer:", Ev.print fallbackAnswer], none)

/-- One user turn with its `except Exception` handler (lines 198–200): a
raised exception is caught and turned into two printed lines. -/
def runTurn (w : TurnWorld) : List Ev :=
  match turnBody w with
  | (evs, none) => evs
  | (evs, some e) =>
    evs ++ [Ev.print ("\nAn error occurred: " ++ e.pyStr),
            Ev.print "Please try again with a different question."]

/-- `user_query.lower()`: lower-casing, written over the character list so
that it evaluates on concrete inputs. -/
def strLower (s : String) : String :=
  String.mk (s.toList.map Char.toLower)

/-- Line 117: `user_query.lower() in ['exit', 'quit', 'bye']`. -/
def isExitCommand (q : String) : Bool :=
  strLower q == "exit" || strLower q == "quit" || strLower q == "bye"

/-- The separator printed at the end of each non-exit turn (line 202). -/
def separatorLine : String := "\n" ++ String.mk (List.replicate 50 '-') ++ "\n"

/-- One iteration of the `while True` loop for input `q`: `false` means the
loop breaks (exit command), `true` means it continues with the next input. -/
def processInput (q : String) (w : TurnWorld) : Bool × List Ev :=
  if isExitCommand q then
    (false, [Ev.print "Goodbye!"])
  else
    (true, runTurn w ++ [Ev.print separatorLine])

/-- The read loop over a stream of user inputs, each with the world its turn
sees: the concatenated events until an exit command (or the stream's end). -/
def runLoop : List (String × TurnWorld) → List Ev
  | [] => []
  | (q, w) :: rest =>
    match processInput q w with
    | (false, evs) => evs
    | (true, evs) => evs ++ runLoop rest

/-- The payload carries the error indicator field: it is a dict with an
`"error"` key (`"error" in weather_json`, line 161). -/
def hasErrorKey (j : Json) : Bool :=
  match j with
  | .obj fs => fs.any (fun kv => kv.1 == "error")
  | _ => false

/-- The payload has the shape of the success value built on lines 56–65:
a dict with exactly the keys `location` and `current`, in that order. -/
def isWeatherResultShape (j : Json) : Bool :=
  match j with
  | .obj fs => fs.map Prod.fst == ["location", "current"]
  | _ => false

/-- The payload has the shape of the not-found error of line 34: a dict
whose only key is `error`. -/
def isNotFoundShape (j : Json) : Bool :=
  match j with
  | .obj fs => fs.map Prod.fst == ["error"]
  | _ => false

/-- How many diagnostic lines a trace prints. -/
def logCount (evs : List Ev) : Nat :=
  evs.countP (fun e => match e with | .print _ => true | _ => false)

/-- How many LLM chat-completion requests a trace issues. -/
def llmCount (evs : List Ev) : Nat :=
  evs.countP (fun e => match e with | .llmRequest => true | _ => false)

/-- The execution of `get_current_weather location` in world `w` raises the
exception `e` at one of its raise sites: the geocoding request itself, the
coordinate extraction from its response, the weather request itself, the
`cod` / `message` accesses, or the field extraction from the weather
response.  Each constructor carries the conditions under which control
reaches that site. -/
inductive LookupRaises (location : Json) (w : LookupWorld) : PyExc → Prop where
  | geoCall (e : PyExc) :
      w.geoOutcome = .error e → LookupRaises location w e
  | geoExtract (g : Json) (e : PyExc) :
      w.geoOutcome = .ok g → g.falsy = false →
      extractCoords g = .error e → LookupRaises location w e
  | weatherCall (g lat lon : Json) (e : PyExc) :
      w.geoOutcome = .ok g → g.falsy = false →
      extractCoords g = .ok (lat, lon) →
      w.weatherOutcome = .error e → LookupRaises location w e
  | codGet (g lat lon wd : Json) (e : PyExc) :
      w.geoOutcome = .ok g → g.falsy = false →
      extractCoords g = .ok (lat, lon) →
      w.weatherOutcome = .ok wd →
      pyGetMethod wd "cod" Json.null = .error e → LookupRaises location w e
  | msgGet (g lat lon wd cod : Json) (e : PyExc) :
      w.geoOutcome = .ok g → g.falsy = false →
      extractCoords g = .ok (lat, lon) →
      w.weatherOutcome = .ok wd →
      pyGetMethod wd "cod" Json.null = .ok cod → cod.pyEqInt 200 = false →
      pyGetMethod wd "message" (Json.str "Unknown error") = .error e →
      LookupRaises location w e
  | currentExtract (g lat lon wd cod : Json) (e : PyExc) :
      w.geoOutcome = .ok g → g.falsy = false →
      extractCoords g = .ok (lat, lon) →
      w.weatherOutcome = .ok wd →
      pyGetMethod wd "cod" Json.null = .ok cod → cod.pyEqInt 200 = true →
      extractCurrent wd = .error e → LookupRaises location w e

/-- Master case analysis: every `get_current_weather` call lands in exactly
one of the five return points of the source — success, not-found,
provider-error, or an `except`-clause payload (before or after the weather
request) — with the corresponding event trace. -/
lemma lookup_cases (location : Json) (w : LookupWorld) :
    (∃ lat lon cur, get_current_weather location w =
      (Json.obj [("location", location), ("current", Json.obj cur)],
       [Ev.geoRequest location.pyStr, Ev.weatherRequest lat lon]))
  ∨ (get_current_weather location w =
      (Json.obj [("error", Json.str ("Location '" ++ location.pyStr ++ "' not found"))],
       [Ev.geoRequest location.pyStr]))
  ∨ (∃ lat lon msg cod, get_current_weather location w =
      (Json.obj [("error", Json.str "Weather API error"), ("message", msg),
                 ("status_code", cod)],
       [Ev.geoRequest location.pyStr, Ev.weatherRequest lat lon,
        Ev.print ("API Error: " ++ msg.pyStr)]))
  ∨ (∃ e, get_current_weather location w =
      (excPayload e, [Ev.geoRequest location.pyStr, Ev.print (excLog e)]))
  ∨ (∃ lat lon e, get_current_weather location w =
      (excPayload e, [Ev.geoRequest location.pyStr, Ev.weatherRequest lat lon,
                      Ev.print (excLog e)])) := by
  obtain ⟨go, wo⟩ := w
  rcases go with e | g
  · exact Or.inr (Or.inr (Or.inr (Or.inl ⟨e, rfl⟩)))
  · by_cases hf : g.falsy
    · exact Or.inr (Or.inl (by simp [get_current_weather, hf]))
    · rcases hc : extractCoords g with e | ⟨lat, lon⟩
      · refine Or.inr (Or.inr (Or.inr (Or.inl ⟨e, ?_⟩)))
        simp [get_current_weather, hf, hc, excResult]
      · rcases wo with e | wd
        · refine Or.inr (Or.inr (Or.inr (Or.inr ⟨lat, lon, e, ?_⟩)))
          simp [get_current_weather, hf, hc, excResult]
        · rcases hcod : pyGetMethod wd "cod" Json.null with e | cod
          · refine Or.inr (Or.inr (Or.inr (Or.inr ⟨lat, lon, e, ?_⟩)))
            simp [get_current_weather, hf, hc, hcod, excResult]
          · by_cases h200 : cod.pyEqInt 200
            · rcases hcur : extractCurrent wd with e | cur
              · refine Or.inr (Or.inr (Or.inr (Or.inr ⟨lat, lon, e, ?_⟩)))
                simp [get_current_weather, hf, hc, hcod, h200, hcur, excResult]
              · refine Or.inl ⟨lat, lon, cur, ?_⟩
                simp [get_current_weather, hf, hc, hcod, h200, hcur]
            · rcases hmsg : pyGetMethod wd "message" (Json.str "Unknown error") with e | m
              · refine Or.inr (Or.inr (Or.inr (Or.inr ⟨lat, lon, e, ?_⟩)))
                simp [get_current_weather, hf, hc, hcod, h200, hmsg, excResult]
              · refine Or.inr (Or.inr (Or.inl ⟨lat, lon, m, cod, ?_⟩))
                simp [get_current_weather, hf, hc, hcod, h200, hmsg]

/-- Every `except`-clause payload is a dict with keys `error` and `message`
(in particular: it carries the error indicator, and it is neither the
success shape nor the bare not-found shape). -/
lemma excPayload_shape (e : PyExc) :
    hasErrorKey (excPayload e) = true ∧ isWeatherResultShape (excPayload e) = false ∧
      isNotFoundShape (excPayload e) = false := by
  cases e <;> simp [excPayload, hasErrorKey, isWeatherResultShape, isNotFoundShape]

/-- C1: every call to `get_current_weather` returns exactly one payload —
a WeatherResult (`{location, current}`) or a LookupError (a dict carrying
the `"error"` indicator key), never both and never neither — for every
input location and every combination of provider responses or raised
exceptions.  Totality ("never neither") is by construction: the embedding
is a total Lean function, mirroring the source's `try/except Exception`
which leaves no uncaught path; this theorem proves the exclusivity: the
presence of the `"error"` key separates the two shapes in every case. -/
theorem lookup_returns_exactly_one_payload (location : Json) (w : LookupWorld) :
    (isWeatherResultShape (get_current_weather location w).1 = true ∧
     hasErrorKey (get_current_weather location w).1 = false) ∨
    (hasErrorKey (get_current_weather location w).1 = true ∧
     isWeatherResultShape (get_current_weather location w).1 = false) := by
  rcases lookup_cases location w with
      ⟨lat, lon, cur, h⟩ | h | ⟨lat, lon, m, c, h⟩ | ⟨e, h⟩ | ⟨lat, lon, e, h⟩ <;> rw [h]
  · exact Or.inl (by simp [hasErrorKey, isWeatherResultShape])
  · exact Or.inr (by simp [hasErrorKey, isWeatherResultShape])
  · exact Or.inr (by simp [hasErrorKey, isWeatherResultShape])
  · exact Or.inr ⟨(excPayload_shape e).1, (excPayload_shape e).2.1⟩
  · exact Or.inr ⟨(excPayload_shape e).1, (excPayload_shape e).2.1⟩

/-- C9 (amended): a failing lookup of kind ProviderError, NetworkError,
DataError or UnexpectedError prints exactly one diagnostic line; a NotFound
failure — and a success — prints none. -/
theorem failing_lookup_log_lines (location : Json) (w : LookupWorld) :
    logCount (get_current_weather location w).2 =
      (if hasErrorKey (get_current_weather location w).1 &&
          !(isNotFoundShape (get_current_weather location w).1) then 1 else 0) := by
  rcases lookup_cases location w with
      ⟨lat, lon, cur, h⟩ | h | ⟨lat, lon, m, c, h⟩ | ⟨e, h⟩ | ⟨lat, lon, e, h⟩ <;> rw [h]
  · simp [logCount, hasErrorKey, List.countP, List.countP.go]
  · simp [logCount, hasErrorKey, isNotFoundShape, List.countP, List.countP.go]
  · simp [logCount, hasErrorKey, isNotFoundShape, List.countP, List.countP.go]
  · obtain ⟨h1, -, h3⟩ := excPayload_shape e
    simp [logCount, h1, h3, List.countP, List.countP.go]
  · obtain ⟨h1, -, h3⟩ := excPayload_shape e
    simp [logCount, h1, h3, List.countP, List.countP.go]

/-- A world in which the geocoding request resolves to the empty array. -/
def geoEmptyWorld : LookupWorld :=
  { geoOutcome := Except.ok (Json.arr []), weatherOutcome := Except.ok Json.null }

/-- C9 counterexample: with an empty geocoding result, the lookup fails
(its payload carries the `"error"` key) yet prints zero diagnostic lines —
the NotFound branch (line 34) returns without logging, so not every failing
invocation emits a log line. -/
theorem notfound_emits_no_log_line :
    hasErrorKey (get_current_weather (Json.str "Zzyzxqqq123") geoEmptyWorld).1 = true ∧
    logCount (get_current_weather (Json.str "Zzyzxqqq123") geoEmptyWorld).2 = 0 := by
  constructor <;> rfl

/-- C2: when geocoding resolves (non-empty result array, coordinates
present) and the weather provider reports success (`cod == 200`, all fields
present), the returned WeatherResult's `location` field is the caller's
original input string, exactly — the geocoder's response is only used for
coordinates, never for the echoed location. -/
theorem lookup_echoes_original_location (s : String) (w : LookupWorld)
    (g0 lat lon wd : Json) (gs : List Json) (cur : List (String × Json))
    (hg : w.geoOutcome = Except.ok (Json.arr (g0 :: gs)))
    (hco : extractCoords (Json.arr (g0 :: gs)) = Except.ok (lat, lon))
    (hw : w.weatherOutcome = Except.ok wd)
    (hcod : pyGetMethod wd "cod" Json.null = Except.ok (Json.num 200))
    (hcur : extractCurrent wd = Except.ok cur) :
    (get_current_weather (Json.str s) w).1 =
      Json.obj [("location", Json.str s), ("current", Json.obj cur)] := by
  simp [get_current_weather, hg, hco, hw, hcod, hcur, Json.falsy, Json.pyEqInt]

/-- A world in which both provider calls succeed with complete data. -/
def successWorld : LookupWorld :=
  { geoOutcome := Except.ok (Json.arr [Json.obj [("lat", Json.num 48), ("lon", Json.num 2)]]),
    weatherOutcome := Except.ok (Json.obj
      [("cod", Json.num 200),
       ("main", Json.obj [("temp", Json.num 21), ("feels_like", Json.num 20),
                          ("humidity", Json.num 55)]),
       ("wind", Json.obj [("speed", Json.num 3)]),
       ("weather", Json.arr [Json.obj [("description", Json.str "clear sky")]])]) }

/-- Witness for C2 at the concrete input `"Paris"`. -/
theorem lookup_echoes_original_location_witness :
    (get_current_weather (Json.str "Paris") successWorld).1 =
      Json.obj [("location", Json.str "Paris"),
                ("current", Json.obj
                  [("temperature", Json.num 21), ("feels_like", Json.num 20),
                   ("humidity", Json.num 55), ("wind_speed", Json.num 3),
                   ("weather_description", Json.str "clear sky")])] :=
  lookup_echoes_original_location "Paris" successWorld _ _ _ _ _ _ rfl rfl rfl rfl rfl

/-- C3: when geocoding returns the empty result array, the lookup returns
the NotFound error naming the location, its whole event trace is the single
geocoding request, and in particular the weather-conditions request is
never issued. -/
theorem lookup_notfound_skips_weather_call (location : Json) (w : LookupWorld)
    (hg : w.geoOutcome = Except.ok (Json.arr [])) :
    (get_current_weather location w).1 =
      Json.obj [("error", Json.str ("Location '" ++ location.pyStr ++ "' not found"))] ∧
    (get_current_weather location w).2 = [Ev.geoRequest location.pyStr] ∧
    ∀ lat lon, Ev.weatherRequest lat lon ∉ (get_current_weather location w).2 := by
  have h : get_current_weather location w =
      (Json.obj [("error", Json.str ("Location '" ++ location.pyStr ++ "' not found"))],
       [Ev.geoRequest location.pyStr]) := by
    simp [get_current_weather, hg, Json.falsy]
  exact ⟨by rw [h], by rw [h], fun lat lon => by rw [h]; simp⟩

/-- Witness for C3 at the concrete input `"Zzyzxqqq123"`. -/
theorem lookup_notfound_skips_weather_call_witness :
    (get_current_weather (Json.str "Zzyzxqqq123") geoEmptyWorld).1 =
      Json.obj [("error",
        Json.str ("Location '" ++ (Json.str "Zzyzxqqq123").pyStr ++ "' not found"))] ∧
    (get_current_weather (Json.str "Zzyzxqqq123") geoEmptyWorld).2 =
      [Ev.geoRequest (Json.str "Zzyzxqqq123").pyStr] ∧
    ∀ lat lon,
      Ev.weatherRequest lat lon ∉ (get_current_weather (Json.str "Zzyzxqqq123") geoEmptyWorld).2 :=
  lookup_notfound_skips_weather_call (Json.str "Zzyzxqqq123") geoEmptyWorld rfl

/-- C4: when the weather response is a dict whose embedded `cod` field is
present and non-success (Python `cod != 200`) and which carries a provider
`message`, the lookup returns the ProviderError payload holding exactly
that `cod` and that `message`, and never a WeatherResult. -/
theorem lookup_provider_error_payload (location : Json) (w : LookupWorld)
    (g0 lat lon cod msg : Json) (gs : List Json) (wfs : List (String × Json))
    (hg : w.geoOutcome = Except.ok (Json.arr (g0 :: gs)))
    (hco : extractCoords (Json.arr (g0 :: gs)) = Except.ok (lat, lon))
    (hw : w.weatherOutcome = Except.ok (Json.obj wfs))
    (hcod : wfs.lookup "cod" = some cod)
    (h200 : cod.pyEqInt 200 = false)
    (hmsg : wfs.lookup "message" = some msg) :
    (get_current_weather location w).1 =
      Json.obj [("error", Json.str "Weather API error"), ("message", msg),
                ("status_code", cod)] ∧
    isWeatherResultShape (get_current_weather location w).1 = false := by
  have h : (get_current_weather location w).1 =
      Json.obj [("error", Json.str "Weather API error"), ("message", msg),
                ("status_code", cod)] := by
    simp [get_current_weather, hg, hco, hw, pyGetMethod, hcod, hmsg, h200, Json.falsy]
  exact ⟨h, by rw [h]; simp [isWeatherResultShape]⟩

/-- A world in which the weather provider reports an embedded failure. -/
def providerErrWorld : LookupWorld :=
  { geoOutcome := Except.ok (Json.arr [Json.obj [("lat", Json.num 48), ("lon", Json.num 2)]]),
    weatherOutcome := Except.ok (Json.obj
      [("cod", Json.str "404"), ("message", Json.str "city not found")]) }

/-- Witness for C4 at a concrete provider failure (`cod = "404"`). -/
theorem lookup_provider_error_payload_witness :
    (get_current_weather (Json.str "Paris") providerErrWorld).1 =
      Json.obj [("error", Json.str "Weather API error"),
                ("message", Json.str "city not found"),
                ("status_code", Json.str "404")] ∧
    isWeatherResultShape (get_current_weather (Json.str "Paris") providerErrWorld).1 = false :=
  lookup_provider_error_payload (Json.str "Paris") providerErrWorld
    _ _ _ _ _ _ _ rfl rfl rfl rfl rfl rfl

/-- Whenever the execution raises `e`, the returned payload is the one the
matching `except` clause builds. -/
lemma lookup_raises_payload (location : Json) (w : LookupWorld) (e : PyExc)
    (h : LookupRaises location w e) :
    (get_current_weather location w).1 = excPayload e := by
  induction h with
  | geoCall e h1 => simp [get_current_weather, h1, excResult]
  | geoExtract g e h1 h2 h3 =>
    simp [get_current_weather, h1, h2, h3, excResult]
  | weatherCall g lat lon e h1 h2 h3 h4 =>
    simp [get_current_weather, h1, h2, h3, h4, excResult]
  | codGet g lat lon wd e h1 h2 h3 h4 h5 =>
    simp [get_current_weather, h1, h2, h3, h4, h5, excResult]
  | msgGet g lat lon wd cod e h1 h2 h3 h4 h5 h6 h7 =>
    simp [get_current_weather, h1, h2, h3, h4, h5, h6, h7, excResult]
  | currentExtract g lat lon wd cod e h1 h2 h3 h4 h5 h6 h7 =>
    simp [get_current_weather, h1, h2, h3, h4, h5, h6, h7, excResult]

/-- C5: every exception the lookup's execution raises — at either HTTP
request or at any field access on either provider response — becomes the
lookup's returned value, not a propagated exception: a transport failure
(`RequestException`) yields the NetworkError payload with the exception's
message, a missing-field access (`KeyError`) yields the DataError payload
naming the missing field, and every other exception yields the
UnexpectedError payload with its message. -/
theorem lookup_exception_to_error_payload (location : Json) (w : LookupWorld) (e : PyExc)
    (h : LookupRaises location w e) :
    (∀ m, e = PyExc.requestException m → (get_current_weather location w).1 =
        Json.obj [("error", Json.str "Network error"), ("message", Json.str m)]) ∧
    (∀ r, e = PyExc.keyError r → (get_current_weather location w).1 =
        Json.obj [("error", Json.str "Data parsing error"),
                  ("message", Json.str ("Missing field: " ++ r))]) ∧
    ((∀ m, e ≠ PyExc.requestException m) → (∀ r, e ≠ PyExc.keyError r) →
      (get_current_weather location w).1 =
        Json.obj [("error", Json.str "Unexpected error"),
                  ("message", Json.str e.pyStr)]) := by
  have hp := lookup_raises_payload location w e h
  refine ⟨fun m hm => ?_, fun r hr => ?_, fun hn hk => ?_⟩
  · subst hm; simpa [excPayload] using hp
  · subst hr; simpa [excPayload] using hp
  · cases e with
    | requestException m => exact absurd rfl (hn m)
    | keyError r => exact absurd rfl (hk r)
    | typeError m => simpa [excPayload, PyExc.pyStr] using hp
    | indexError => simpa [excPayload, PyExc.pyStr] using hp
    | otherError m => simpa [excPayload, PyExc.pyStr] using hp

/-- A world in which the geocoding request raises a transport failure. -/
def netErrWorld : LookupWorld :=
  { geoOutcome := Except.error (PyExc.requestException "connection refused"),
    weatherOutcome := Except.ok Json.null }

/-- Witness for C5 at a concrete raised transport exception. -/
theorem lookup_exception_to_error_payload_witness :
    (get_current_weather (Json.str "Paris") netErrWorld).1 =
      Json.obj [("error", Json.str "Network error"),
                ("message", Json.str "connection refused")] :=
  (lookup_exception_to_error_payload (Json.str "Paris") netErrWorld
      (PyExc.requestException "connection refused")
      (LookupRaises.geoCall _ rfl)).1 "connection refused" rfl

/-- The lookup's payload is always a dict (so `"error" in weather_json` and
`weather_json.get(...)` at the orchestrator never raise). -/
lemma lookup_payload_is_obj (location : Json) (w : LookupWorld) :
    ∃ fs, (get_current_weather location w).1 = Json.obj fs := by
  rcases lookup_cases location w with
      ⟨lat, lon, cur, h⟩ | h | ⟨lat, lon, m, c, h⟩ | ⟨e, h⟩ | ⟨lat, lon, e, h⟩ <;> rw [h]
  · exact ⟨_, rfl⟩
  · exact ⟨_, rfl⟩
  · exact ⟨_, rfl⟩
  · cases e <;> exact ⟨_, rfl⟩
  · cases e <;> exact ⟨_, rfl⟩

/-- The lookup itself never issues an LLM request. -/
lemma lookup_trace_no_llm (location : Json) (w : LookupWorld) :
    llmCount (get_current_weather location w).2 = 0 := by
  rcases lookup_cases location w with
      ⟨lat, lon, cur, h⟩ | h | ⟨lat, lon, m, c, h⟩ | ⟨e, h⟩ | ⟨lat, lon, e, h⟩ <;> rw [h] <;> rfl

/-- Inversion for the argument splat: `get_current_weather(**args)` enters
the function exactly when `args` is a dict whose only key is `location`. -/
lemma splat_ok_inv (lw : LookupWorld) (args : Json) (r : Json × List Ev)
    (h : splatWeatherCall lw args = Except.ok r) :
    ∃ v, args = Json.obj [("location", v)] ∧ r = get_current_weather v lw := by
  cases args with
  | obj fs =>
    match fs with
    | [] => simp [splatWeatherCall] at h
    | [(k, v)] =>
      by_cases hk : k == "location"
      · refine ⟨v, ?_, ?_⟩
        · rw [eq_of_beq hk]
        · simp [splatWeatherCall, hk] at h
          exact h.symm
      · simp [splatWeatherCall, hk] at h
    | kv1 :: kv2 :: kvs =>
      by_cases hall : ((kv1 :: kv2 :: kvs).all (fun kv => kv.1 == "location")) <;>
        simp [splatWeatherCall, hall] at h
  | null => simp [splatWeatherCall] at h
  | bool b => simp [splatWeatherCall] at h
  | num n => simp [splatWeatherCall] at h
  | str s => simp [splatWeatherCall] at h
  | arr xs => simp [splatWeatherCall] at h

/-- `llmCount` distributes over concatenation. -/
lemma llmCount_append (a b : List Ev) : llmCount (a ++ b) = llmCount a + llmCount b :=
  List.countP_append _ _ _

/-- C6: when the first LLM response requests a tool call whose declared
name is not `get_current_weather`, the turn's whole trace is: the single
LLM request, the processing notice, and the static fallback answer — so no
lookup runs (no geocoding or weather request), no second LLM request is
issued, and the printed answer is the fallback beginning "I'm not sure how
to handle that request". -/
theorem unknown_tool_skips_lookup (w : TurnWorld) (m : LlmMsg) (tc : ToolCall)
    (rest : List ToolCall)
    (h1 : w.firstLlm = Except.ok m)
    (h2 : m.tool_calls = tc :: rest)
    (h3 : (tc.function.name == "get_current_weather") = false) :
    runTurn w = [Ev.llmRequest, Ev.print "\nProcessing your question...",
                 Ev.print "\nAnswer:", Ev.print fallbackAnswer] ∧
    llmCount (runTurn w) = 1 ∧
    (∀ s, Ev.geoRequest s ∉ runTurn w) ∧
    (∀ lat lon, Ev.weatherRequest lat lon ∉ runTurn w) := by
  have h : runTurn w = [Ev.llmRequest, Ev.print "\nProcessing your question...",
      Ev.print "\nAnswer:", Ev.print fallbackAnswer] := by
    simp [runTurn, turnBody, h1, h2, h3]
  exact ⟨h, by rw [h]; rfl, fun s => by rw [h]; simp, fun lat lon => by rw [h]; simp⟩

/-- A world in which the first LLM response requests an unknown tool. -/
def unknownToolWorld : TurnWorld :=
  { firstLlm := Except.ok
      { content := none,
        tool_calls := [{ id := "call_1",
                         function := { name := "get_stock_price",
                                       argumentsParsed := Except.ok (Json.obj []) } }] },
    lookupWorld := geoEmptyWorld,
    secondLlm := Except.ok { content := some "unused", tool_calls := [] } }

/-- Witness for C6 at a concrete unknown tool call. -/
theorem unknown_tool_skips_lookup_witness :
    runTurn unknownToolWorld =
      [Ev.llmRequest, Ev.print "\nProcessing your question...",
       Ev.print "\nAnswer:", Ev.print fallbackAnswer] ∧
    llmCount (runTurn unknownToolWorld) = 1 ∧
    (∀ s, Ev.geoRequest s ∉ runTurn unknownToolWorld) ∧
    (∀ lat lon, Ev.weatherRequest lat lon ∉ runTurn unknownToolWorld) :=
  unknown_tool_skips_lookup unknownToolWorld _ _ _ rfl rfl rfl

/-- C7: when any statement of a non-exit turn raises (either LLM call,
argument parsing, or the call into the lookup), the exception is caught at
the per-turn boundary: the turn's output after the events already performed
is exactly the generic failure notice (two printed lines) and the
separator, and the loop's remaining behaviour is `runLoop rest`, built only
from the later inputs — nothing of the failed turn carries over. -/
theorem turn_exception_caught_loop_continues (q : String) (w : TurnWorld) (e : PyExc)
    (rest : List (String × TurnWorld))
    (hq : isExitCommand q = false)
    (he : (turnBody w).2 = some e) :
    runLoop ((q, w) :: rest) =
      (turnBody w).1 ++
        [Ev.print ("\nAn error occurred: " ++ e.pyStr),
         Ev.print "Please try again with a different question.",
         Ev.print separatorLine] ++ runLoop rest := by
  rcases hTB : turnBody w with ⟨evs, oe⟩
  rw [hTB] at he
  simp only at he
  subst he
  simp [runLoop, processInput, hq, runTurn, hTB]

/-- A world in which the first LLM call raises. -/
def firstLlmFailWorld : TurnWorld :=
  { firstLlm := Except.error (PyExc.otherError "APIConnectionError: Connection error"),
    lookupWorld := geoEmptyWorld,
    secondLlm := Except.ok { content := none, tool_calls := [] } }

/-- Witness for C7 at a concrete failing first LLM call. -/
theorem turn_exception_caught_loop_continues_witness :
    runLoop [("What is the weather in Paris?", firstLlmFailWorld)] =
      (turnBody firstLlmFailWorld).1 ++
        [Ev.print ("\nAn error occurred: " ++
           (PyExc.otherError "APIConnectionError: Connection error").pyStr),
         Ev.print "Please try again with a different question.",
         Ev.print separatorLine] ++ runLoop [] :=
  turn_exception_caught_loop_continues "What is the weather in Paris?" firstLlmFailWorld
    (PyExc.otherError "APIConnectionError: Connection error") [] (by rfl) rfl

lemma llmCount_nil : llmCount [] = 0 := rfl

lemma llmCount_print (s : String) (l : List Ev) :
    llmCount (Ev.print s :: l) = llmCount l := by
  simp [llmCount, List.countP_cons]

lemma llmCount_geo (s : String) (l : List Ev) :
    llmCount (Ev.geoRequest s :: l) = llmCount l := by
  simp [llmCount, List.countP_cons]

lemma llmCount_weather (a b : Json) (l : List Ev) :
    llmCount (Ev.weatherRequest a b :: l) = llmCount l := by
  simp [llmCount, List.countP_cons]

lemma llmCount_llm (l : List Ev) : llmCount (Ev.llmRequest :: l) = llmCount l + 1 := by
  simp [llmCount, List.countP_cons]

/-- The turn issues its second LLM request exactly when the first response
carries a tool call named `get_current_weather` whose arguments parse, whose
`.get("location", "")` succeeds (the parsed value is a dict), and whose
splat into `get_current_weather(**args)` succeeds. -/
def reachesSecondCall (w : TurnWorld) : Bool :=
  match w.firstLlm with
  | .error _ => false
  | .ok m =>
    match m.tool_calls with
    | [] => false
    | tc :: _ =>
      (tc.function.name == "get_current_weather") &&
      (match tc.function.argumentsParsed with
       | .error _ => false
       | .ok args =>
         (match pyGetMethod args "location" (Json.str "") with
          | .error _ => false
          | .ok _ =>
            (match splatWeatherCall w.lookupWorld args with
             | .error _ => false
             | .ok _ => true)))

/-- The `except` handler only prints, so the turn's LLM-request count is
that of the `try` body's trace. -/
lemma llmCount_runTurn (w : TurnWorld) :
    llmCount (runTurn w) = llmCount (turnBody w).1 := by
  rcases hTB : turnBody w with ⟨evs, oe⟩
  rcases oe with _ | e <;>
    simp [runTurn, hTB, llmCount_append, llmCount_print, llmCount_nil]

/-- The `try` body performs two LLM requests when the second call is
reached, and one otherwise. -/
lemma llmCount_turnBody (w : TurnWorld) :
    llmCount (turnBody w).1 = if reachesSecondCall w then 2 else 1 := by
  obtain ⟨fl, lw, sl⟩ := w
  rcases fl with e | m
  · simp [turnBody, reachesSecondCall, llmCount_llm, llmCount_nil]
  · rcases hm : m.tool_calls with _ | ⟨tc, tcs⟩
    · simp [turnBody, reachesSecondCall, hm, llmCount_llm, llmCount_print, llmCount_nil]
    · by_cases hname : (tc.function.name == "get_current_weather") = true
      · rcases hargs : tc.function.argumentsParsed with e | args
        · simp [turnBody, reachesSecondCall, hm, hname, hargs,
                llmCount_llm, llmCount_print, llmCount_nil]
        · rcases hloc : pyGetMethod args "location" (Json.str "") with e | location
          · simp [turnBody, reachesSecondCall, hm, hname, hargs, hloc,
                  llmCount_llm, llmCount_print, llmCount_nil]
          · rcases hsp : splatWeatherCall lw args with e | r
            · simp [turnBody, reachesSecondCall, hm, hname, hargs, hloc, hsp,
                    llmCount_llm, llmCount_print, llmCount_nil]
            · obtain ⟨v, hargsEq, hr⟩ := splat_ok_inv lw args r hsp
              rcases hgc : get_current_weather v lw with ⟨wd, levs⟩
              have hsp2 : splatWeatherCall lw args = Except.ok (wd, levs) := by
                rw [hsp, hr, hgc]
              obtain ⟨fs, hfs⟩ := lookup_payload_is_obj v lw
              rw [hgc] at hfs
              simp only at hfs
              subst hfs
              have hlev : llmCount levs = 0 := by
                have := lookup_trace_no_llm v lw
                rwa [hgc] at this
              rcases sl with e2 | m2 <;>
                by_cases herr : (fs.any (fun kv => kv.1 == "error")) = true <;>
                simp [turnBody, reachesSecondCall, hm, hname, hargs, hloc, hsp2,
                      pyContains, herr, llmCount_append, llmCount_llm,
                      llmCount_print, llmCount_nil, hlev] <;>
                simp [pyGetMethod, llmCount_append, llmCount_llm,
                      llmCount_print, llmCount_nil, hlev]
      · simp [turnBody, reachesSecondCall, hm, hname,
              llmCount_llm, llmCount_print, llmCount_nil]

/-- C8 (amended): a processed (non-exit) user query makes at most two LLM
request/response round trips; it makes exactly two precisely when the
first response requests the known tool with arguments that parse and splat
into the lookup (`reachesSecondCall`), and exactly one otherwise — a
direct answer, an unknown tool name, or an exception before the second
call. -/
theorem llm_roundtrips_at_most_two (q : String) (w : TurnWorld)
    (hq : isExitCommand q = false) :
    llmCount (processInput q w).2 ≤ 2 ∧
    (llmCount (processInput q w).2 = 2 ↔ reachesSecondCall w = true) ∧
    (reachesSecondCall w = false → llmCount (processInput q w).2 = 1) := by
  have h : llmCount (processInput q w).2 = if reachesSecondCall w then 2 else 1 := by
    rw [← llmCount_turnBody, ← llmCount_runTurn]
    simp [processInput, hq, llmCount_append, llmCount_print, llmCount_nil]
  rw [h]
  by_cases hr : reachesSecondCall w <;> simp [hr]

/-- A world in which the model answers directly, without any tool call. -/
def directAnswerWorld : TurnWorld :=
  { firstLlm := Except.ok
      { content := some "I can only answer questions about current weather.",
        tool_calls := [] },
    lookupWorld := geoEmptyWorld,
    secondLlm := Except.ok { content := none, tool_calls := [] } }

/-- C8 counterexample: a non-exit query the model answers directly makes
exactly one LLM round trip, not two — `exactly two per user query` fails. -/
theorem llm_roundtrips_not_always_two :
    isExitCommand "Tell me a joke" = false ∧
    llmCount (processInput "Tell me a joke" directAnswerWorld).2 = 1 := by
  constructor <;> rfl

/-- Witness for C8 (amended) at a concrete non-exit query. -/
theorem llm_roundtrips_at_most_two_witness :
    llmCount (processInput "Tell me a joke" directAnswerWorld).2 ≤ 2 ∧
    (llmCount (processInput "Tell me a joke" directAnswerWorld).2 = 2 ↔
      reachesSecondCall directAnswerWorld = true) ∧
    (reachesSecondCall directAnswerWorld = false →
      llmCount (processInput "Tell me a joke" directAnswerWorld).2 = 1) :=
  llm_roundtrips_at_most_two "Tell me a joke" directAnswerWorld (by rfl)

/-- C10: when the model's tool call names the known tool and its parsed
argument object is a dict whose key set is not exactly `{"location"}`, the
splat `get_current_weather(**args)` raises `TypeError` before the lookup is
entered — the turn's full trace shows no geocoding and no weather request
and ends in the generic per-turn failure notice — and conversely the lookup
is entered only when the argument object is exactly `{"location": v}`. -/
theorem splat_call_argument_contract (w : TurnWorld) (m : LlmMsg) (tc : ToolCall)
    (rest : List ToolCall) (fs : List (String × Json))
    (h1 : w.firstLlm = Except.ok m)
    (h2 : m.tool_calls = tc :: rest)
    (h3 : (tc.function.name == "get_current_weather") = true)
    (h4 : tc.function.argumentsParsed = Except.ok (Json.obj fs))
    (h5 : fs.map Prod.fst ≠ ["location"]) :
    (∃ msg, splatWeatherCall w.lookupWorld (Json.obj fs) =
        Except.error (PyExc.typeError msg) ∧
      runTurn w =
        [Ev.llmRequest, Ev.print "\nProcessing your question...",
         Ev.print ("Getting weather for: " ++ ((fs.lookup "location").getD (Json.str "")).pyStr),
         Ev.print ("\nAn error occurred: " ++ msg),
         Ev.print "Please try again with a different question."]) ∧
    (∀ s, Ev.geoRequest s ∉ runTurn w) ∧
    (∀ la lo, Ev.weatherRequest la lo ∉ runTurn w) ∧
    (∀ lw args r, splatWeatherCall lw args = Except.ok r →
      ∃ v, args = Json.obj [("location", v)] ∧ r = get_current_weather v lw) := by
  have hsp : ∃ msg, splatWeatherCall w.lookupWorld (Json.obj fs) =
      Except.error (PyExc.typeError msg) := by
    rcases fs with _ | ⟨⟨k, v⟩, fs1⟩
    · exact ⟨_, rfl⟩
    · rcases fs1 with _ | ⟨kv2, fs2⟩
      · have hk : (k == "location") = false := by
          cases hkb : (k == "location")
          · rfl
          · exact absurd (by rw [eq_of_beq hkb]; rfl) h5
        exact ⟨"get_current_weather() got an unexpected keyword argument " ++ squote k,
               by simp [splatWeatherCall, hk]⟩
      · by_cases hall : (((k, v) :: kv2 :: fs2).all (fun kv => kv.1 == "location")) = true
        · exact ⟨"get_current_weather() got multiple values for argument 'location'",
                 by simp [splatWeatherCall, hall]⟩
        · exact ⟨"get_current_weather() got an unexpected keyword argument",
                 by simp [splatWeatherCall, hall]⟩
  obtain ⟨msg, hspm⟩ := hsp
  have hrt : runTurn w =
      [Ev.llmRequest, Ev.print "\nProcessing your question...",
       Ev.print ("Getting weather for: " ++ ((fs.lookup "location").getD (Json.str "")).pyStr),
       Ev.print ("\nAn error occurred: " ++ msg),
       Ev.print "Please try again with a different question."] := by
    simp [runTurn, turnBody, h1, h2, h3, h4, hspm, pyGetMethod, PyExc.pyStr]
  exact ⟨⟨msg, hspm, hrt⟩, fun s => by rw [hrt]; simp,
         fun la lo => by rw [hrt]; simp, splat_ok_inv⟩

/-- A world in which the tool call's parsed arguments are
`{"city": "Paris"}` — the wrong key. -/
def wrongArgsWorld : TurnWorld :=
  { firstLlm := Except.ok
      { content := none,
        tool_calls := [{ id := "call_1",
                         function := { name := "get_current_weather",
                                       argumentsParsed := Except.ok
                                         (Json.obj [("city", Json.str "Paris")]) } }] },
    lookupWorld := geoEmptyWorld,
    secondLlm := Except.ok { content := none, tool_calls := [] } }

/-- Witness for C10 at the concrete argument object `{"city": "Paris"}`. -/
theorem splat_call_argument_contract_witness :
    (∃ msg, splatWeatherCall wrongArgsWorld.lookupWorld
        (Json.obj [("city", Json.str "Paris")]) =
        Except.error (PyExc.typeError msg) ∧
      runTurn wrongArgsWorld =
        [Ev.llmRequest, Ev.print "\nProcessing your question...",
         Ev.print ("Getting weather for: " ++
           (([("city", Json.str "Paris")].lookup "location").getD (Json.str "")).pyStr),
         Ev.print ("\nAn error occurred: " ++ msg),
         Ev.print "Please try again with a different question."]) ∧
    (∀ s, Ev.geoRequest s ∉ runTurn wrongArgsWorld) ∧
    (∀ la lo, Ev.weatherRequest la lo ∉ runTurn wrongArgsWorld) ∧
    (∀ lw args r, splatWeatherCall lw args = Except.ok r →
      ∃ v, args = Json.obj [("location", v)] ∧ r = get_current_weather v lw) :=
  splat_call_argument_contract wrongArgsWorld _ _ _ _ rfl rfl rfl rfl (by decide)
